import Mathlib

/-
Verification of the IRR loan cash-flow repository.

Shallow embedding of the program in Lean 4:
  * loan_amort.py : Loan, Amortization and its methods (payment_date,
    fetch_prepay_speed, fetch_default_rate, calc_scheduled_cashflow,
    calc_default_prepay_adjust_cashflow, calc_cashflows);
  * irr.py : npv and the irr wrapper around the nonlinear solver.

Python floats are embedded as rationals (exact field arithmetic); numpy
arrays as Lean lists; the pandas tables CHARGED_OFF / PREPAY (loaded from an
external spreadsheet by input.py) as explicit table values passed in, since
their contents are external data.  Fallible operations (raises) return
Except.  The date arithmetic of pandas date_range / Timestamp.replace is
embedded directly on a calendar-date structure.
-/

set_option maxRecDepth 4000

/-- Amortization frequency codes accepted by the program:
FREQ_PERIOD_MAP = {'D': 365, 'M': 12, '3M': 4, '6M': 2, 'Y': 1}. -/
inductive Freq where
  | D
  | M
  | M3
  | M6
  | Y
deriving DecidableEq

/-- loan_amort.py FREQ_PERIOD_MAP: periods per year for each frequency. -/
def FREQ_PERIOD_MAP : Freq → ℕ
  | Freq.D => 365
  | Freq.M => 12
  | Freq.M3 => 4
  | Freq.M6 => 2
  | Freq.Y => 1

/-- A calendar date (pandas Timestamp, date part). -/
structure Date where
  year : ℕ
  month : ℕ
  day : ℕ
deriving DecidableEq

/-- Gregorian leap year test. -/
def isLeap (y : ℕ) : Bool :=
  y % 4 == 0 && (y % 100 != 0 || y % 400 == 0)

/-- Number of days in a month of a given year. -/
def daysInMonth (y m : ℕ) : ℕ :=
  if m = 2 then (if isLeap y then 29 else 28)
  else if m = 4 ∨ m = 6 ∨ m = 9 ∨ m = 11 then 30
  else 31

/-- Successor day in the calendar (used for the 'D' frequency of date_range). -/
def nextDay (d : Date) : Date :=
  if d.day < daysInMonth d.year d.month then ⟨d.year, d.month, d.day + 1⟩
  else if d.month < 12 then ⟨d.year, d.month + 1, 1⟩
  else ⟨d.year + 1, 1, 1⟩

/-- Year and month lying k months after the given year/month. -/
def addMonthsYM (y m k : ℕ) : ℕ × ℕ :=
  let idx := y * 12 + (m - 1) + k
  (idx / 12, idx % 12 + 1)

/-- The month-end date of the month lying k months after the start's month
(pandas MonthEnd offsets roll the start forward to a month end). -/
def monthEndAfter (start : Date) (k : ℕ) : Date :=
  let ym := addMonthsYM start.year start.month k
  ⟨ym.1, ym.2, daysInMonth ym.1 ym.2⟩

/-- pandas date_range(start, periods=n, freq=...): for 'D' consecutive days
from the start; for 'M'/'3M'/'6M' month-end dates stepping 1/3/6 months,
the first being the month end of the start's month; for 'Y' year-end
(Dec 31) dates starting in the start's year. -/
def date_range (start : Date) (n : ℕ) (f : Freq) : List Date :=
  match f with
  | Freq.D => (List.range n).map (fun t => Nat.iterate nextDay t start)
  | Freq.M => (List.range n).map (fun t => monthEndAfter start t)
  | Freq.M3 => (List.range n).map (fun t => monthEndAfter start (3 * t))
  | Freq.M6 => (List.range n).map (fun t => monthEndAfter start (6 * t))
  | Freq.Y => (List.range n).map (fun t => ⟨start.year + t, 12, 31⟩)

/-- Error kinds of the embedded program (the exceptions the Python code can
raise on the modelled paths). -/
inductive Err where
  | keyNotFound
  | valueErrorRange
  | ilocOutOfBounds
  | invalidSelectorType
  | broadcastMismatch
  | orderingViolation
  | indexOutOfRange
  | dayOutOfRange
  | seriesUnset
deriving DecidableEq

/-- Timestamp.replace(day=day): valid only when the day exists in that
month, otherwise pandas raises ValueError. -/
def replace_day (d : Date) (day : ℕ) : Except Err Date :=
  if 1 ≤ day ∧ day ≤ daysInMonth d.year d.month then Except.ok ⟨d.year, d.month, day⟩
  else Except.error Err.dayOutOfRange

/-- list(map(lambda t: t.replace(day = start_date.day), self.pmt_date)):
replace the day of every date, propagating the first failure. -/
def replaceAll (ds : List Date) (day : ℕ) : Except Err (List Date) :=
  match ds with
  | [] => Except.ok []
  | d :: rest =>
    match replace_day d day, replaceAll rest day with
    | Except.ok d2, Except.ok rest2 => Except.ok (d2 :: rest2)
    | Except.error e, _ => Except.error e
    | Except.ok _, Except.error e => Except.error e

/-- Amortization.payment_date (loan_amort.py, date list it stores):
nper = periods + 1 dates from pd.date_range; if the start date's day
differs from the first generated date's day, every date's day is replaced
by the start date's day. -/
def payment_date (start : Date) (periods : ℕ) (freq : Freq) : Except Err (List Date) :=
  let nper := periods + 1
  let raw := date_range start nper freq
  if start.day ≠ (raw.headD start).day then replaceAll raw start.day
  else Except.ok raw

/-- Loan (loan_amort.py): loan characteristics.  Floats are rationals. -/
structure Loan where
  grade : String
  issue_date : Date
  term : ℕ
  coupon : ℚ
  invested : ℚ
  outstanding_balance : ℚ
  recovery_rate : ℚ
  premium : ℚ
  servicing_fee : ℚ
  earnout_fee : ℚ
  amort_freq : Freq
  charge_off_col_num : Option ℤ

/-- self.charge_off_lookup_key = '-'.join([str(term), self.grade]). -/
def charge_off_lookup_key (L : Loan) : String :=
  toString L.term ++ "-" ++ L.grade

/-- The periodic rate: loan.coupon / FREQ_PERIOD_MAP[loan.amort_freq]. -/
def loanRate (L : Loan) : ℚ :=
  L.coupon / (FREQ_PERIOD_MAP L.amort_freq : ℚ)

/-- numpy_financial pmt(rate, nper, pv): level payment of an annuity,
-(pv*(1+rate)^nper) * rate / ((1+rate)^nper - 1), and -pv/nper at rate 0. -/
def npf_pmt (r : ℚ) (n : ℕ) (pv : ℚ) : ℚ :=
  if r = 0 then -pv / (n : ℚ)
  else -pv * (1 + r) ^ n * r / ((1 + r) ^ n - 1)

/-- numpy_financial fv(rate, nper, pmt, pv):
-(pv*(1+rate)^nper + pmt*((1+rate)^nper - 1)/rate), and -(pv + pmt*nper)
at rate 0. -/
def npf_fv (r : ℚ) (n : ℕ) (pmt pv : ℚ) : ℚ :=
  if r = 0 then -(pv + pmt * (n : ℚ))
  else -(pv * (1 + r) ^ n + pmt * ((1 + r) ^ n - 1) / r)

/-- numpy_financial ipmt(rate, per, nper, pv): interest portion of payment
`per`, rate times the remaining balance after per - 1 payments. -/
def npf_ipmt (r : ℚ) (per n : ℕ) (pv : ℚ) : ℚ :=
  npf_fv r (per - 1) (npf_pmt r n pv) pv * r

/-- numpy_financial ppmt(rate, per, nper, pv): principal portion of payment
`per`, pmt - ipmt. -/
def npf_ppmt (r : ℚ) (per n : ℕ) (pv : ℚ) : ℚ :=
  npf_pmt r n pv - npf_ipmt r per n pv

/-- Scheduled principal series of calc_scheduled_cashflow:
zero at index 0, npf.ppmt(rate, i, nper, -invested) for i in 1..term. -/
def sched_principal (r : ℚ) (n : ℕ) (inv : ℚ) : ℕ → ℚ
  | 0 => 0
  | i + 1 => npf_ppmt r (i + 1) n (-inv)

/-- Scheduled interest series: zero at index 0, npf.ipmt for i in 1..term. -/
def sched_interest (r : ℚ) (n : ℕ) (inv : ℚ) : ℕ → ℚ
  | 0 => 0
  | i + 1 => npf_ipmt r (i + 1) n (-inv)

/-- Scheduled balance: invested at index 0, then successive subtraction of
scheduled principal (the for-loop of calc_scheduled_cashflow). -/
def sched_balance (r : ℚ) (n : ℕ) (inv : ℚ) : ℕ → ℚ
  | 0 => inv
  | i + 1 => sched_balance r n inv i - sched_principal r n inv (i + 1)

/-- The CHARGED_OFF pandas DataFrame: named columns of rates. -/
structure ChargeOffTable where
  cols : List (String × List ℚ)
deriving DecidableEq

/-- CHARGED_OFF.shape[1]. -/
def ChargeOffTable.ncols (t : ChargeOffTable) : ℕ := t.cols.length

/-- Membership test `chargeoff_col in CHARGED_OFF` (column names). -/
def ChargeOffTable.containsKey (t : ChargeOffTable) (s : String) : Bool :=
  t.cols.any (fun c => c.1 == s)

/-- CHARGED_OFF[s]: the column named s. -/
def ChargeOffTable.colByName (t : ChargeOffTable) (s : String) : List ℚ :=
  ((t.cols.find? (fun c => c.1 == s)).getD (s, [])).2

/-- The column at 0-based position j. -/
def ChargeOffTable.colByPos (t : ChargeOffTable) (j : ℕ) : List ℚ :=
  ((t.cols.getD j ("", [])).2)

/-- CHARGED_OFF.iloc[:, i]: pandas positional column access.  Accepts
0 ≤ i < ncols directly and -ncols ≤ i < 0 counting from the end; any other
integer raises IndexError. -/
def ChargeOffTable.iloc (t : ChargeOffTable) (i : ℤ) : Except Err (List ℚ) :=
  if 0 ≤ i then
    if i < (t.ncols : ℤ) then Except.ok (t.colByPos i.toNat)
    else Except.error Err.ilocOutOfBounds
  else
    if -(t.ncols : ℤ) ≤ i then Except.ok (t.colByPos (i + (t.ncols : ℤ)).toNat)
    else Except.error Err.ilocOutOfBounds

/-- The PREPAY pandas DataFrame: columns keyed by an integer term, entries
possibly missing (NaN). -/
structure PrepayTable where
  cols : List (ℕ × List (Option ℚ))
deriving DecidableEq

/-- Membership test `nper in PREPAY`. -/
def PrepayTable.containsKey (t : PrepayTable) (k : ℕ) : Bool :=
  t.cols.any (fun c => c.1 == k)

/-- PREPAY[k]: the column keyed k. -/
def PrepayTable.col (t : PrepayTable) (k : ℕ) : List (Option ℚ) :=
  ((t.cols.find? (fun c => c.1 == k)).getD (k, [])).2

/-- Series.dropna(): remove the missing entries. -/
def dropna (l : List (Option ℚ)) : List ℚ := l.filterMap id

/-- The polymorphic chargeoff_col argument of fetch_default_rate:
a Python int, a str, or a value of any other type. -/
inductive Selector where
  | int (i : ℤ)
  | str (s : String)
  | other
deriving DecidableEq

/-- The Amortization dataclass (loan_amort.py): result series, all
initially None, plus the two multipliers defaulting to 1.0. -/
structure Amortization where
  pmt_cnt : Option (List ℕ) := none
  pmt_date : Option (List Date) := none
  scheduled_principal : Option (List ℚ) := none
  scheduled_interest : Option (List ℚ) := none
  scheduled_balance : Option (List ℚ) := none
  prepay_speed : Option (List ℚ) := none
  default_rate : Option (List ℚ) := none
  recovery : Option (List ℚ) := none
  servicing_cf : Option (List ℚ) := none
  earout_cf : Option (List ℚ) := none
  balance : Option (List ℚ) := none
  principle : Option (List ℚ) := none
  default : Option (List ℚ) := none
  prepay : Option (List ℚ) := none
  interest : Option (List ℚ) := none
  total_cf : Option (List ℚ) := none
  _default_multiplier : ℚ := 1
  _prepay_multiplier : ℚ := 1
deriving DecidableEq

/-- Read entry i of a stored series.  This total reader is only ever
evaluated under the read guard of calc_default_prepay_adjust_cashflow
(adjSeriesOk below), which requires the series present and every index the
method touches in range, exactly as numpy does — a read outside that guard
(None series or out-of-range index) is a failure of the method, never a 0. -/
def stFun (o : Option (List ℚ)) : ℕ → ℚ :=
  fun i => (o.getD []).getD i 0

/-- Amortization.fetch_prepay_speed(nper): KeyError when nper is absent;
otherwise the slice assignment prepay_speed[1:] = column.dropna() builds a
series of length nper+1 with index 0 zero.  numpy accepts the assignment
when the dropna'd column has length exactly nper, or length 1 (broadcast:
the single value fills the whole slice); any other length raises
ValueError (shape mismatch). -/
def fetch_prepay_speed (PP : PrepayTable) (nper : ℕ) (st : Amortization) :
    Except Err Amortization :=
  if ¬ (PP.containsKey nper) then Except.error Err.keyNotFound
  else
    let vals := dropna (PP.col nper)
    if vals.length = nper then
      Except.ok { st with prepay_speed := some ((0 : ℚ) :: vals) }
    else if vals.length = 1 then
      Except.ok { st with prepay_speed := some ((0 : ℚ) :: List.replicate nper (vals.headD 0)) }
    else Except.error Err.broadcastMismatch

/-- Amortization.fetch_default_rate(chargeoff_col): for an int, ValueError
when the index is ≥ the column count, otherwise .iloc positional access;
for a str, KeyError when the key is absent, otherwise the named column;
KeyError for any other argument type. -/
def fetch_default_rate (CO : ChargeOffTable) (sel : Selector) (st : Amortization) :
    Except Err Amortization :=
  match sel with
  | Selector.int i =>
    if (CO.ncols : ℤ) ≤ i then Except.error Err.valueErrorRange
    else
      match CO.iloc i with
      | Except.ok col => Except.ok { st with default_rate := some col }
      | Except.error e => Except.error e
  | Selector.str s =>
    if CO.containsKey s then Except.ok { st with default_rate := some (CO.colByName s) }
    else Except.error Err.keyNotFound
  | Selector.other => Except.error Err.invalidSelectorType

/-- Amortization.calc_scheduled_cashflow(loan): pmt_cnt = arange(term+1) and
the three scheduled series materialized over indices 0..term. -/
def calc_scheduled_cashflow (L : Loan) (st : Amortization) : Amortization :=
  let n := L.term
  { st with
    pmt_cnt := some (List.range (n + 1)),
    scheduled_principal := some ((List.range (n + 1)).map (sched_principal (loanRate L) n L.invested)),
    scheduled_interest := some ((List.range (n + 1)).map (sched_interest (loanRate L) n L.invested)),
    scheduled_balance := some ((List.range (n + 1)).map (sched_balance (loanRate L) n L.invested)) }

/-- The inputs read by the loop of calc_default_prepay_adjust_cashflow:
the scheduled series, the fetched rate series, the two multipliers and the
loan-level scalars. -/
structure AdjEnv where
  sp : ℕ → ℚ
  si : ℕ → ℚ
  sb : ℕ → ℚ
  dr : ℕ → ℚ
  ps : ℕ → ℚ
  dm : ℚ
  pm : ℚ
  rate : ℚ
  recov : ℚ
  serv : ℚ
  m : ℚ
  fee : ℚ
  inv : ℚ
  prem : ℚ

/-- The realized balance recurrence of the loop: balance[0] is
scheduled_balance[0]; each iteration computes default, prepay and principal
from the prior balance and subtracts them. -/
def AdjEnv.balance (e : AdjEnv) : ℕ → ℚ
  | 0 => e.sb 0
  | i + 1 =>
    let b := e.balance i
    let d := b * e.dr i * e.dm
    let p := (b - (b - e.si (i + 1)) / e.sb i * e.sp (i + 1)) * e.ps (i + 1) * e.pm
    let pr := (b - d) * e.sp (i + 1) / e.sb i + p
    b - pr - d

/-- default[i] = balance[i-1] * default_rate[i-1] * default_multiplier. -/
def AdjEnv.default (e : AdjEnv) : ℕ → ℚ
  | 0 => 0
  | i + 1 => e.balance i * e.dr i * e.dm

/-- prepay[i] = (balance[i-1] - (balance[i-1] - scheduled_interest[i]) /
scheduled_balance[i-1] * scheduled_principal[i]) * prepay_speed[i] *
prepay_multiplier. -/
def AdjEnv.prepay (e : AdjEnv) : ℕ → ℚ
  | 0 => 0
  | i + 1 => (e.balance i - (e.balance i - e.si (i + 1)) / e.sb i * e.sp (i + 1)) * e.ps (i + 1) * e.pm

/-- principle[i] = (balance[i-1] - default[i]) * scheduled_principal[i] /
scheduled_balance[i-1] + prepay[i]. -/
def AdjEnv.principle (e : AdjEnv) : ℕ → ℚ
  | 0 => 0
  | i + 1 => (e.balance i - e.default (i + 1)) * e.sp (i + 1) / e.sb i + e.prepay (i + 1)

/-- interest[i] = (balance[i-1] - default[i]) * rate. -/
def AdjEnv.interest (e : AdjEnv) : ℕ → ℚ
  | 0 => 0
  | i + 1 => (e.balance i - e.default (i + 1)) * e.rate

/-- recovery = default * loan.recovery_rate. -/
def AdjEnv.recoveryF (e : AdjEnv) (i : ℕ) : ℚ := e.default i * e.recov

/-- servicing_cf[1:] = (balance[0:-1] - default[1:]) * servicing_fee /
nper_per_year, with servicing_cf[0] = 0. -/
def AdjEnv.servicing (e : AdjEnv) : ℕ → ℚ
  | 0 => 0
  | i + 1 => (e.balance i - e.default (i + 1)) * e.serv / e.m

/-- earout_cf: zeros except entries 12 and 18, each earnout_fee/2 * invested. -/
def AdjEnv.earout (e : AdjEnv) (i : ℕ) : ℚ :=
  if i = 12 ∨ i = 18 then e.fee / 2 * e.inv else 0

/-- total_cf = principle + interest + recovery - servicing_cf - earout_cf,
with total_cf[0] overridden to -invested * (1 + premium). -/
def AdjEnv.total (e : AdjEnv) : ℕ → ℚ
  | 0 => -e.inv * (1 + e.prem)
  | i + 1 => e.principle (i + 1) + e.interest (i + 1) + e.recoveryF (i + 1) - e.servicing (i + 1) - e.earout (i + 1)

/-- The AdjEnv that calc_default_prepay_adjust_cashflow reads off the
current state and the loan. -/
def adjEnvOfState (L : Loan) (st : Amortization) : AdjEnv :=
  { sp := stFun st.scheduled_principal
    si := stFun st.scheduled_interest
    sb := stFun st.scheduled_balance
    dr := stFun st.default_rate
    ps := stFun st.prepay_speed
    dm := st._default_multiplier
    pm := st._prepay_multiplier
    rate := loanRate L
    recov := L.recovery_rate
    serv := L.servicing_fee
    m := (FREQ_PERIOD_MAP L.amort_freq : ℚ)
    fee := L.earnout_fee
    inv := L.invested
    prem := L.premium }

/-- The reads calc_default_prepay_adjust_cashflow performs on the stored
series: the write balance[0] needs nper ≥ 1, the pre-loop read
scheduled_balance[0] needs that series present with at least one entry, and
for every loop period 1 ≤ i < nper the body reads scheduled_principal[i],
scheduled_interest[i], prepay_speed[i] (indices up to nper-1) and
scheduled_balance[i-1], default_rate[i-1] (indices up to nper-2); numpy
raises TypeError on a None series and IndexError on an out-of-range index,
so the method can produce output only when all of these hold. -/
def adjSeriesOk (st : Amortization) (nper : ℕ) : Prop :=
  st.scheduled_principal ≠ none ∧ st.scheduled_interest ≠ none ∧
  st.scheduled_balance ≠ none ∧ st.default_rate ≠ none ∧ st.prepay_speed ≠ none ∧
  1 ≤ nper ∧ 1 ≤ (st.scheduled_balance.getD []).length ∧
  nper - 1 ≤ (st.scheduled_balance.getD []).length ∧
  nper ≤ (st.scheduled_principal.getD []).length ∧
  nper ≤ (st.scheduled_interest.getD []).length ∧
  nper - 1 ≤ (st.default_rate.getD []).length ∧
  nper ≤ (st.prepay_speed.getD []).length

instance (st : Amortization) (nper : ℕ) : Decidable (adjSeriesOk st nper) := by
  unfold adjSeriesOk
  infer_instance

/-- Amortization.calc_default_prepay_adjust_cashflow(loan): raises if
pmt_cnt has not been populated; nper = len(pmt_cnt); a None or too-short
input series makes a read of the loop raise (TypeError / IndexError,
collapsed into one error value here — which exception Python hits first is
not tracked); then the loop and the post-loop series run, and the
assignments earout_cf[12] and earout_cf[18] raise IndexError when those
indices are outside the series. -/
def calc_default_prepay_adjust_cashflow (L : Loan) (st : Amortization) :
    Except Err Amortization :=
  match st.pmt_cnt with
  | none => Except.error Err.orderingViolation
  | some cnt =>
    let nper := cnt.length
    if adjSeriesOk st nper then
      let e := adjEnvOfState L st
      if 12 < nper then
        if 18 < nper then
          Except.ok { st with
            balance := some ((List.range nper).map e.balance),
            default := some ((List.range nper).map e.default),
            prepay := some ((List.range nper).map e.prepay),
            principle := some ((List.range nper).map e.principle),
            interest := some ((List.range nper).map e.interest),
            recovery := some ((List.range nper).map e.recoveryF),
            servicing_cf := some ((List.range nper).map e.servicing),
            earout_cf := some ((List.range nper).map e.earout),
            total_cf := some ((List.range nper).map e.total) }
        else Except.error Err.indexOutOfRange
      else Except.error Err.indexOutOfRange
    else Except.error Err.seriesUnset

/-- Python truthiness of the Optional[int] charge_off_col_num:
None and 0 are falsy, every other integer truthy. -/
def truthyOptInt : Option ℤ → Bool
  | none => false
  | some n => n != 0

/-- Amortization.calc_cashflows(loan): the five orchestration steps in
order; `if loan.charge_off_col_num:` selects the explicit column only when
it is truthy, otherwise the term-grade key lookup. -/
def calc_cashflows (CO : ChargeOffTable) (PP : PrepayTable) (L : Loan)
    (st : Amortization) : Except Err Amortization :=
  match fetch_prepay_speed PP L.term st with
  | Except.error e => Except.error e
  | Except.ok st1 =>
    match (if truthyOptInt L.charge_off_col_num
           then fetch_default_rate CO (Selector.int (L.charge_off_col_num.getD 0)) st1
           else fetch_default_rate CO (Selector.str (charge_off_lookup_key L)) st1) with
    | Except.error e => Except.error e
    | Except.ok st2 =>
      match payment_date L.issue_date L.term L.amort_freq with
      | Except.error e => Except.error e
      | Except.ok dates =>
        calc_default_prepay_adjust_cashflow L
          (calc_scheduled_cashflow L { st2 with pmt_date := some dates })

/-- irr.py npv(r): sum of cashflow[t] / (1+r)^t over t = 0 .. len-1. -/
def npv (cashflow : List ℚ) (r : ℚ) : ℚ :=
  (List.zipWith (fun c t => c / (1 + r) ^ t) cashflow (List.range cashflow.length)).sum

/-- The f_tol=1e-10 absolute residual tolerance passed to the solver. -/
def broyden_f_tol : ℚ := 1 / 10 ^ 10

/-- Outcome of scipy.optimize.broyden1: either a converged root, or the
NoConvergence exception carrying the solver's current best estimate in
args[0].  The solver itself is external to the repository, so the claims
quantify over any solver with this interface. -/
inductive SolverResult where
  | ok (r : ℚ)
  | noConvergence (best : ℚ)

/-- irr.py irr(cashflow, guess): calls the solver on npv; on NoConvergence
it logs a warning (the Bool of the result) and returns the carried best
estimate instead of re-raising. -/
def irr (solver : (ℚ → ℚ) → ℚ → SolverResult) (cashflow : List ℚ) (guess : ℚ) :
    ℚ × Bool :=
  match solver (npv cashflow) guess with
  | SolverResult.ok r => (r, false)
  | SolverResult.noConvergence best => (best, true)

/-! ### Helper lemmas -/

/-- Reading entry i of a materialized series recovers the generating
function, for in-range i. -/
theorem stFun_range_map (f : ℕ → ℚ) (n i : ℕ) (h : i < n) :
    stFun (some ((List.range n).map f)) i = f i := by
  simp [stFun, List.getD_eq_getElem?_getD, List.getElem?_map, List.getElem?_range h]

theorem adj_default_succ (e : AdjEnv) (i : ℕ) :
    e.default (i + 1) = e.balance i * e.dr i * e.dm := rfl

theorem adj_prepay_succ (e : AdjEnv) (i : ℕ) :
    e.prepay (i + 1)
      = (e.balance i - (e.balance i - e.si (i + 1)) / e.sb i * e.sp (i + 1)) * e.ps (i + 1) * e.pm := rfl

theorem adj_principle_succ (e : AdjEnv) (i : ℕ) :
    e.principle (i + 1)
      = (e.balance i - e.default (i + 1)) * e.sp (i + 1) / e.sb i + e.prepay (i + 1) := rfl

theorem adj_interest_succ (e : AdjEnv) (i : ℕ) :
    e.interest (i + 1) = (e.balance i - e.default (i + 1)) * e.rate := rfl

theorem adj_balance_succ (e : AdjEnv) (i : ℕ) :
    e.balance (i + 1) = e.balance i - e.principle (i + 1) - e.default (i + 1) := rfl

theorem adj_balance_zero (e : AdjEnv) : e.balance 0 = e.sb 0 := rfl

/-- Boolean success test for an embedded fallible operation. -/
def isOkE {α : Type} (x : Except Err α) : Bool :=
  match x with
  | Except.ok _ => true
  | Except.error _ => false

/-- Extract the success value of an embedded fallible operation. -/
def okOr {α : Type} [Inhabited α] (x : Except Err α) : α :=
  match x with
  | Except.ok a => a
  | Except.error _ => default

instance : Inhabited Amortization := ⟨{}⟩

/-! ### Concrete inputs used by witnesses and counterexamples -/

/-- A term-18 monthly loan with zero rates (term + 1 = 19 periods). -/
def loanT18 : Loan :=
  ⟨"A", ⟨2015, 8, 24⟩, 18, 0, 18, 0, 0, 0, 0, 0, Freq.M, none⟩

/-- A pre-scheduled state with fetched rate series for loanT18. -/
def stPre18 : Amortization :=
  { default_rate := some (List.replicate 20 (0 : ℚ)),
    prepay_speed := some (List.replicate 19 (0 : ℚ)) }

/-- Scheduled state for loanT18 (pmt_cnt populated, as after step 4). -/
def stT18 : Amortization := calc_scheduled_cashflow loanT18 stPre18

/-- A term-20 monthly loan used by the C5 witness. -/
def loanT20 : Loan :=
  ⟨"B", ⟨2015, 8, 24⟩, 20, 0, 20, 0, 0, 0, 0, 0, Freq.M, none⟩

/-- A pre-scheduled state with fetched rate series for loanT20 (22 default
rates and 21 prepay speeds cover every read of a 21-period loop). -/
def stPre20 : Amortization :=
  { default_rate := some (List.replicate 22 (0 : ℚ)),
    prepay_speed := some (List.replicate 21 (0 : ℚ)) }

/-- Scheduled state for loanT20. -/
def stT20 : Amortization := calc_scheduled_cashflow loanT20 stPre20

/-- The loan of the C6 counterexample: monthly, coupon -24, so the periodic
rate is -2; term 3; invested 100. -/
def loanC6 : Loan :=
  ⟨"C", ⟨2015, 8, 24⟩, 3, -24, 100, 0, 0, 0, 0, 0, Freq.M, none⟩

/-- A one-column charge-off table. -/
def coOne : ChargeOffTable := ⟨[("18-A", [0, 0])]⟩

/-! ### C3 -/

/-- C3: for every cash-flow sequence and initial guess, irr never propagates
the solver's failure: a converged solve returns the root, and a
NoConvergence outcome returns the solver's carried best estimate together
with the logged warning instead of raising. -/
theorem claim_C3 (solver : (ℚ → ℚ) → ℚ → SolverResult) (cf : List ℚ) (g : ℚ) :
    (∀ r, solver (npv cf) g = SolverResult.ok r → irr solver cf g = (r, false)) ∧
    (∀ best, solver (npv cf) g = SolverResult.noConvergence best →
      irr solver cf g = (best, true)) := by
  constructor <;> intro x h <;> simp [irr, h]

/-- Witness for C3 at a concrete non-converging solver. -/
theorem claim_C3_witness :
    irr (fun _ _ => SolverResult.noConvergence 5) [(-100 : ℚ), 60, 60] 0 = (5, true) :=
  (claim_C3 (fun _ _ => SolverResult.noConvergence 5) [(-100 : ℚ), 60, 60] 0).2 5 rfl

/-! ### C4 -/

/-- C4: whenever the solver returns a root satisfying its absolute
convergence criterion |npv r| ≤ 1e-10, the value irr returns satisfies the
same bound: npv(irr(v)) is within the solver's tolerance of zero. -/
theorem claim_C4 (solver : (ℚ → ℚ) → ℚ → SolverResult) (cf : List ℚ) (g r : ℚ)
    (hok : solver (npv cf) g = SolverResult.ok r)
    (hconv : |npv cf r| ≤ broyden_f_tol) :
    |npv cf (irr solver cf g).1| ≤ broyden_f_tol := by
  simpa [irr, hok] using hconv

/-- Witness for C4 at the cash flow [-100, 110] and the exact root 1/10. -/
theorem claim_C4_witness :
    |npv [(-100 : ℚ), 110] (1 / 10)| ≤ broyden_f_tol ∧
    |npv [(-100 : ℚ), 110]
        (irr (fun _ _ => SolverResult.ok (1 / 10)) [(-100 : ℚ), 110] 0).1| ≤ broyden_f_tol := by
  have hc : |npv [(-100 : ℚ), 110] (1 / 10)| ≤ broyden_f_tol := by
    norm_num [npv, broyden_f_tol, List.range, List.range.loop]
  exact ⟨hc, claim_C4 (fun _ _ => SolverResult.ok (1 / 10)) [(-100 : ℚ), 110] 0 (1 / 10) rfl hc⟩

/-! ### C10 -/

/-- C10: a loan whose explicit charge-off column selector is 0 takes the
key-based lookup path of calc_cashflows, exactly as if no selector had been
given: 0 is falsy, so column index 0 is unreachable via the orchestration. -/
theorem claim_C10 (CO : ChargeOffTable) (PP : PrepayTable) (L : Loan)
    (st : Amortization) (h : L.charge_off_col_num = some 0) :
    calc_cashflows CO PP L st
      = calc_cashflows CO PP { L with charge_off_col_num := none } st := by
  cases L with
  | mk g d t c inv ob rr pr sf ef fq cn =>
    simp only at h
    subst h
    rfl

/-- Witness for C10 at a concrete loan with selector 0. -/
theorem claim_C10_witness :
    calc_cashflows coOne ⟨[]⟩ { loanT18 with charge_off_col_num := some 0 } {}
      = calc_cashflows coOne ⟨[]⟩
          { { loanT18 with charge_off_col_num := some 0 } with charge_off_col_num := none } {} :=
  claim_C10 coOne ⟨[]⟩ { loanT18 with charge_off_col_num := some 0 } {} rfl

/-! ### C5: counterexample -/

/-- C5 counterexample: a loan of term 18 (< 19) for which the adjustment
recurrence nevertheless succeeds: the series has term + 1 = 19 entries, so
both earnout indices 12 and 18 are in range.  The claimed precondition
term ≥ 19 is therefore one period too strong. -/
theorem claim_C5_counterexample :
    loanT18.term < 19 ∧
    isOkE (calc_default_prepay_adjust_cashflow loanT18 stT18) = true := by
  constructor
  · decide
  · rfl

/-! ### C6: counterexample -/

/-- C6 counterexample: a loan satisfying the descriptor invariant (term 3 ≥ 1,
invested 100 > 0, monthly frequency) whose periodic rate is -24/12 = -2,
for which the scheduled balance is exactly 0 at index 1 = i - 1 for the
in-range period i = 2, so the division of the adjustment recurrence is not
well-defined there. -/
theorem claim_C6_counterexample :
    1 ≤ loanC6.term ∧ 0 < loanC6.invested ∧ 2 ≤ loanC6.term ∧
    sched_balance (loanRate loanC6) loanC6.term loanC6.invested (2 - 1) = 0 := by
  refine ⟨by decide, by norm_num [loanC6], by decide, ?_⟩
  norm_num [loanC6, loanRate, FREQ_PERIOD_MAP, sched_balance, sched_principal,
    npf_ppmt, npf_ipmt, npf_pmt, npf_fv]

/-! ### C8: counterexample -/

/-- C8 counterexample: on a one-column table, the integer selector -2 does
not exceed the column count (-2 < 1), yet fetch_default_rate fails (the
guard passes and the positional lookup is out of bounds below -ncols), so
failure is not equivalent to the index exceeding the column count. -/
theorem claim_C8_counterexample :
    isOkE (fetch_default_rate coOne (Selector.int (-2)) {}) = false ∧
    (-2 : ℤ) < (coOne.ncols : ℤ) := by
  constructor
  · rfl
  · decide

/-! ### C9: counterexample -/

/-- C9 counterexample: starting Jan 31 2015 with monthly frequency, the raw
month-end series drifts to day 28 at February, but because the first
generated date's day (31) matches the start's day no correction is applied,
and the returned series keeps the drifted day 28 ≠ 31. -/
theorem claim_C9_counterexample :
    (payment_date ⟨2015, 1, 31⟩ 1 Freq.M).toOption
      = some [⟨2015, 1, 31⟩, ⟨2015, 2, 28⟩] ∧
    (Date.mk 2015 2 28).day ≠ (Date.mk 2015 1 31).day := by
  constructor
  · rfl
  · decide

/-- Inversion of a successful calc_default_prepay_adjust_cashflow run:
pmt_cnt was populated, the earnout indices 12 and 18 were in range (the
read guard also held), and the output series are the materialized loop
series on an otherwise unchanged state. -/
theorem adjust_ok (L : Loan) (st st' : Amortization)
    (h : calc_default_prepay_adjust_cashflow L st = Except.ok st') :
    ∃ cnt, st.pmt_cnt = some cnt ∧ 12 < cnt.length ∧ 18 < cnt.length ∧
      st' = { st with
        balance := some ((List.range cnt.length).map (adjEnvOfState L st).balance),
        default := some ((List.range cnt.length).map (adjEnvOfState L st).default),
        prepay := some ((List.range cnt.length).map (adjEnvOfState L st).prepay),
        principle := some ((List.range cnt.length).map (adjEnvOfState L st).principle),
        interest := some ((List.range cnt.length).map (adjEnvOfState L st).interest),
        recovery := some ((List.range cnt.length).map (adjEnvOfState L st).recoveryF),
        servicing_cf := some ((List.range cnt.length).map (adjEnvOfState L st).servicing),
        earout_cf := some ((List.range cnt.length).map (adjEnvOfState L st).earout),
        total_cf := some ((List.range cnt.length).map (adjEnvOfState L st).total) } := by
  unfold calc_default_prepay_adjust_cashflow at h
  cases hc : st.pmt_cnt with
  | none => rw [hc] at h; exact absurd h (by simp)
  | some cnt =>
    rw [hc] at h
    by_cases hs : adjSeriesOk st cnt.length
    · by_cases h12 : 12 < cnt.length
      · by_cases h18 : 18 < cnt.length
        · simp only [hs, h12, h18, if_true] at h
          exact ⟨cnt, rfl, h12, h18, (Except.ok.injEq _ _ ▸ h).symm⟩
        · simp [hs, h12, h18] at h
      · simp [hs, h12] at h
    · simp [hs] at h

/-! ### C1 -/

/-- C1: for every loan and every period 1 ≤ i ≤ term, the series computed by
calc_default_prepay_adjust_cashflow (run, as orchestrated, on the state
produced by calc_scheduled_cashflow) satisfy, in order:
default[i] = balance[i-1] * default_rate[i-1] * default_multiplier;
prepay[i] = (balance[i-1] - (balance[i-1] - scheduled_interest[i]) /
scheduled_balance[i-1] * scheduled_principal[i]) * prepay_speed[i] *
prepay_multiplier; principal[i] = (balance[i-1] - default[i]) *
scheduled_principal[i] / scheduled_balance[i-1] + prepay[i];
balance[i] = balance[i-1] - principal[i] - default[i];
interest[i] = (balance[i-1] - default[i]) * periodic coupon rate;
with balance[0] seeded to the invested amount. -/
theorem claim_C1 (L : Loan) (st st' : Amortization) (i : ℕ)
    (h : calc_default_prepay_adjust_cashflow L (calc_scheduled_cashflow L st) = Except.ok st')
    (h1 : 1 ≤ i) (h2 : i ≤ L.term) :
    stFun st'.default i
      = stFun st'.balance (i - 1) * stFun st'.default_rate (i - 1) * st'._default_multiplier ∧
    stFun st'.prepay i
      = (stFun st'.balance (i - 1)
          - (stFun st'.balance (i - 1) - stFun st'.scheduled_interest i)
            / stFun st'.scheduled_balance (i - 1) * stFun st'.scheduled_principal i)
        * stFun st'.prepay_speed i * st'._prepay_multiplier ∧
    stFun st'.principle i
      = (stFun st'.balance (i - 1) - stFun st'.default i) * stFun st'.scheduled_principal i
          / stFun st'.scheduled_balance (i - 1) + stFun st'.prepay i ∧
    stFun st'.balance i
      = stFun st'.balance (i - 1) - stFun st'.principle i - stFun st'.default i ∧
    stFun st'.interest i = (stFun st'.balance (i - 1) - stFun st'.default i) * loanRate L ∧
    stFun st'.balance 0 = L.invested := by
  obtain ⟨cnt, hcnt, h12, h18, hrec⟩ := adjust_ok L (calc_scheduled_cashflow L st) st' h
  have hpc : (calc_scheduled_cashflow L st).pmt_cnt = some (List.range (L.term + 1)) := rfl
  rw [hpc] at hcnt
  injection hcnt with hcnt
  subst hcnt
  subst hrec
  have hlen : (List.range (L.term + 1)).length = L.term + 1 := by simp
  rw [hlen]
  obtain ⟨j, rfl⟩ : ∃ j, i = j + 1 := ⟨i - 1, by omega⟩
  have hj1 : j + 1 < L.term + 1 := by omega
  have hj0 : j < L.term + 1 := by omega
  have h0 : 0 < L.term + 1 := by omega
  dsimp only
  rw [Nat.add_sub_cancel]
  rw [stFun_range_map _ _ _ hj1, stFun_range_map _ _ _ hj1, stFun_range_map _ _ _ hj1,
    stFun_range_map _ _ _ hj1, stFun_range_map _ _ _ hj1, stFun_range_map _ _ _ hj0,
    stFun_range_map _ _ _ h0]
  refine ⟨rfl, rfl, rfl, rfl, rfl, ?_⟩
  have hsb : stFun (calc_scheduled_cashflow L st).scheduled_balance 0
      = sched_balance (loanRate L) L.term L.invested 0 := by
    have : (calc_scheduled_cashflow L st).scheduled_balance
        = some ((List.range (L.term + 1)).map (sched_balance (loanRate L) L.term L.invested)) := rfl
    rw [this, stFun_range_map _ _ _ h0]
  exact hsb

/-- Witness for C1: the concrete term-18 loan run through steps 4 and 5,
applying claim_C1 at period 1; the seed conjunct is displayed. -/
theorem claim_C1_witness :
    1 ≤ (1 : ℕ) ∧ 1 ≤ loanT18.term ∧
    stFun (okOr (calc_default_prepay_adjust_cashflow loanT18
        (calc_scheduled_cashflow loanT18 stPre18))).balance 0 = loanT18.invested := by
  have h : calc_default_prepay_adjust_cashflow loanT18 (calc_scheduled_cashflow loanT18 stPre18)
      = Except.ok (okOr (calc_default_prepay_adjust_cashflow loanT18
          (calc_scheduled_cashflow loanT18 stPre18))) := rfl
  exact ⟨le_refl 1, by decide,
    (claim_C1 loanT18 stPre18 _ 1 h (by decide) (by decide)).2.2.2.2.2⟩

/-! ### C2 -/

/-- C2: for every computed result (steps 4 and 5 of the orchestration),
total_cf[0] = -invested * (1 + premium) exactly, and for every period
1 ≤ i ≤ term, total_cf[i] = principal[i] + interest[i] + recovery[i] -
servicing_cf[i] - earnout_cf[i], with recovery[i] = default[i] *
recovery_rate and servicing_cf[i] = (balance[i-1] - default[i]) *
servicing_fee / periods_per_year, and servicing_cf[0] = 0. -/
theorem claim_C2 (L : Loan) (st st' : Amortization) (i : ℕ)
    (h : calc_default_prepay_adjust_cashflow L (calc_scheduled_cashflow L st) = Except.ok st')
    (h1 : 1 ≤ i) (h2 : i ≤ L.term) :
    stFun st'.total_cf 0 = -L.invested * (1 + L.premium) ∧
    stFun st'.total_cf i
      = stFun st'.principle i + stFun st'.interest i + stFun st'.recovery i
        - stFun st'.servicing_cf i - stFun st'.earout_cf i ∧
    stFun st'.recovery i = stFun st'.default i * L.recovery_rate ∧
    stFun st'.servicing_cf i
      = (stFun st'.balance (i - 1) - stFun st'.default i) * L.servicing_fee
          / (FREQ_PERIOD_MAP L.amort_freq : ℚ) ∧
    stFun st'.servicing_cf 0 = 0 := by
  obtain ⟨cnt, hcnt, h12, h18, hrec⟩ := adjust_ok L (calc_scheduled_cashflow L st) st' h
  have hpc : (calc_scheduled_cashflow L st).pmt_cnt = some (List.range (L.term + 1)) := rfl
  rw [hpc] at hcnt
  injection hcnt with hcnt
  subst hcnt
  subst hrec
  have hlen : (List.range (L.term + 1)).length = L.term + 1 := by simp
  rw [hlen]
  obtain ⟨j, rfl⟩ : ∃ j, i = j + 1 := ⟨i - 1, by omega⟩
  have hj1 : j + 1 < L.term + 1 := by omega
  have hj0 : j < L.term + 1 := by omega
  have h0 : 0 < L.term + 1 := by omega
  dsimp only
  rw [Nat.add_sub_cancel]
  simp only [stFun_range_map _ _ _ hj1, stFun_range_map _ _ _ hj0, stFun_range_map _ _ _ h0]
  exact ⟨rfl, rfl, rfl, rfl, rfl⟩

/-- Witness for C2: the concrete term-18 loan, applying claim_C2 at
period 1; the initial-outflow conjunct is displayed. -/
theorem claim_C2_witness :
    1 ≤ loanT18.term ∧
    stFun (okOr (calc_default_prepay_adjust_cashflow loanT18
        (calc_scheduled_cashflow loanT18 stPre18))).total_cf 0
      = -loanT18.invested * (1 + loanT18.premium) := by
  have h : calc_default_prepay_adjust_cashflow loanT18 (calc_scheduled_cashflow loanT18 stPre18)
      = Except.ok (okOr (calc_default_prepay_adjust_cashflow loanT18
          (calc_scheduled_cashflow loanT18 stPre18))) := rfl
  exact ⟨by decide, (claim_C2 loanT18 stPre18 _ 1 h (by decide) (by decide)).1⟩

/-! ### C5: amended -/

/-- Boolean success test agrees with the existence of an ok value. -/
theorem isOkE_eq_true {α : Type} (x : Except Err α) :
    isOkE x = true ↔ ∃ a, x = Except.ok a := by
  cases x <;> simp [isOkE]

/-- Success of the adjustment recurrence, characterized: with pmt_cnt
populated, it succeeds iff the input series cover every read of the loop
and the earnout indices 12 and 18 are inside the series. -/
theorem adjust_ok_iff (L : Loan) (st : Amortization) (cnt : List ℕ)
    (hc : st.pmt_cnt = some cnt) :
    isOkE (calc_default_prepay_adjust_cashflow L st) = true ↔
      (adjSeriesOk st cnt.length ∧ 12 < cnt.length ∧ 18 < cnt.length) := by
  unfold calc_default_prepay_adjust_cashflow
  rw [hc]
  by_cases hs : adjSeriesOk st cnt.length
  · by_cases h12 : 12 < cnt.length
    · by_cases h18 : 18 < cnt.length
      · simp [hs, h12, h18, isOkE]
      · simp [hs, h12, h18, isOkE]
    · simp [hs, h12, isOkE]
  · simp [hs, isOkE]

/-- After calc_scheduled_cashflow, the scheduled series cover the loop of a
term+1-period recurrence, and stored default-rate/prepay-speed series cover
it as soon as they hold at least term and term+1 entries respectively. -/
theorem adjust_sched_ok (L : Loan) (st : Amortization) (dr ps : List ℚ)
    (hdr : st.default_rate = some dr) (hps : st.prepay_speed = some ps)
    (hdrl : L.term ≤ dr.length) (hpsl : L.term + 1 ≤ ps.length) :
    adjSeriesOk (calc_scheduled_cashflow L st) (L.term + 1) := by
  have h1 : (calc_scheduled_cashflow L st).scheduled_principal
      = some ((List.range (L.term + 1)).map (sched_principal (loanRate L) L.term L.invested)) := rfl
  have h2 : (calc_scheduled_cashflow L st).scheduled_interest
      = some ((List.range (L.term + 1)).map (sched_interest (loanRate L) L.term L.invested)) := rfl
  have h3 : (calc_scheduled_cashflow L st).scheduled_balance
      = some ((List.range (L.term + 1)).map (sched_balance (loanRate L) L.term L.invested)) := rfl
  have h4 : (calc_scheduled_cashflow L st).default_rate = st.default_rate := rfl
  have h5 : (calc_scheduled_cashflow L st).prepay_speed = st.prepay_speed := rfl
  unfold adjSeriesOk
  rw [h1, h2, h3, h4, h5, hdr, hps]
  refine ⟨by simp, by simp, by simp, by simp, by simp, by omega, ?_, ?_, ?_, ?_, ?_, ?_⟩ <;>
    simp <;> omega

/-- C5 (amended): on the orchestrated state (calc_scheduled_cashflow has
run, so pmt_cnt has term + 1 entries and the scheduled series are present),
with the fetched default-rate series holding at least term entries and the
prepay-speed series at least term + 1 (covering every read of the loop, as
the source requires on pain of TypeError/IndexError), the adjustment
recurrence succeeds iff term ≥ 18: the earnout indices 12 and 18 are then
inside the series of term + 1 entries, so the claimed bound term ≥ 19 is
one period too strong; and on success the earnout series is zero except
entries 12 and 18, each holding earnout_fee / 2 * invested. -/
theorem claim_C5 (L : Loan) (st : Amortization) (dr ps : List ℚ)
    (hdr : st.default_rate = some dr) (hps : st.prepay_speed = some ps)
    (hdrl : L.term ≤ dr.length) (hpsl : L.term + 1 ≤ ps.length) :
    (isOkE (calc_default_prepay_adjust_cashflow L (calc_scheduled_cashflow L st)) = true
      ↔ 18 ≤ L.term) ∧
    (∀ st', calc_default_prepay_adjust_cashflow L (calc_scheduled_cashflow L st)
        = Except.ok st' →
      st'.earout_cf = some ((List.range (L.term + 1)).map
        (fun i => if i = 12 ∨ i = 18 then L.earnout_fee / 2 * L.invested else 0))) := by
  have hser := adjust_sched_ok L st dr ps hdr hps hdrl hpsl
  have hpc : (calc_scheduled_cashflow L st).pmt_cnt = some (List.range (L.term + 1)) := rfl
  have hlen : (List.range (L.term + 1)).length = L.term + 1 := by simp
  constructor
  · rw [adjust_ok_iff L _ (List.range (L.term + 1)) hpc, hlen]
    constructor
    · rintro ⟨-, -, h18⟩
      omega
    · intro h18
      exact ⟨hser, by omega, by omega⟩
  · intro st' h
    obtain ⟨cnt2, hc2, h12, h18, hrec⟩ := adjust_ok L _ st' h
    rw [hpc] at hc2
    injection hc2 with hc2
    subst hc2
    subst hrec
    rw [hlen]
    rfl

/-- Witness for C5 at the concrete term-20 loan with covering series. -/
theorem claim_C5_witness :
    isOkE (calc_default_prepay_adjust_cashflow loanT20 stT20) = true ↔ 18 ≤ loanT20.term :=
  (claim_C5 loanT20 stPre20 (List.replicate 22 0) (List.replicate 21 0)
    rfl rfl (by decide) (by decide)).1

/-! ### C6: amended -/

/-- At zero periodic rate, every scheduled principal payment is invested/n
(the npf special case). -/
theorem sched_principal_zero_rate (n : ℕ) (inv : ℚ) (i : ℕ) :
    sched_principal 0 n inv (i + 1) = inv / (n : ℚ) := by
  simp [sched_principal, npf_ppmt, npf_ipmt, npf_pmt, npf_fv]

/-- At zero periodic rate the scheduled balance declines linearly:
sched_balance i = invested * (n - i) / n. -/
theorem sched_balance_zero_rate (n : ℕ) (inv : ℚ) (hn : n ≠ 0) :
    ∀ i, sched_balance 0 n inv i = inv * (((n : ℚ) - i) / (n : ℚ)) := by
  have hn0 : (n : ℚ) ≠ 0 := Nat.cast_ne_zero.mpr hn
  intro i
  induction i with
  | zero =>
    simp only [sched_balance, Nat.cast_zero, sub_zero]
    field_simp
  | succ j ih =>
    have hstep : sched_balance 0 n inv (j + 1)
        = sched_balance 0 n inv j - sched_principal 0 n inv (j + 1) := rfl
    rw [hstep, ih, sched_principal_zero_rate]
    push_cast
    field_simp
    ring

/-- At nonzero periodic rate, the scheduled balance has the closed annuity
form invested * ((1+r)^n - (1+r)^i) / ((1+r)^n - 1). -/
theorem sched_balance_closed (r : ℚ) (n : ℕ) (inv : ℚ) (hr : r ≠ 0)
    (hpow : (1 + r) ^ n ≠ 1) :
    ∀ i, sched_balance r n inv i
      = inv * (((1 + r) ^ n - (1 + r) ^ i) / ((1 + r) ^ n - 1)) := by
  have h1 : (1 + r) ^ n - 1 ≠ 0 := sub_ne_zero_of_ne hpow
  intro i
  induction i with
  | zero =>
    simp only [sched_balance, pow_zero]
    field_simp
  | succ j ih =>
    have hstep : sched_balance r n inv (j + 1)
        = sched_balance r n inv j - sched_principal r n inv (j + 1) := rfl
    have hpp : sched_principal r n inv (j + 1)
        = npf_pmt r n (-inv) - npf_fv r j (npf_pmt r n (-inv)) (-inv) * r := rfl
    rw [hstep, ih, hpp]
    unfold npf_pmt npf_fv
    rw [if_neg hr, if_neg hr]
    field_simp
    ring

/-- Positivity of the scheduled balance before the final period, for any
periodic rate above -1 (in particular any nonnegative coupon). -/
theorem sched_balance_pos (r : ℚ) (n : ℕ) (inv : ℚ) (hn : 1 ≤ n) (hinv : 0 < inv)
    (ha : -1 < r) : ∀ i, i < n → 0 < sched_balance r n inv i := by
  intro i hi
  by_cases hr : r = 0
  · subst hr
    rw [sched_balance_zero_rate n inv (by omega) i]
    have hn0 : 0 < (n : ℚ) := by exact_mod_cast Nat.pos_of_ne_zero (by omega)
    have hic : (i : ℚ) < (n : ℚ) := by exact_mod_cast hi
    exact mul_pos hinv (div_pos (by linarith) hn0)
  · have h1r : 0 < 1 + r := by linarith
    rcases lt_trichotomy (1 + r) 1 with hlt | heq | hgt
    · have hpow : (1 + r) ^ n ≠ 1 :=
        ne_of_lt (pow_lt_one₀ (le_of_lt h1r) hlt (by omega))
      rw [sched_balance_closed r n inv hr hpow i]
      have hnum : (1 + r) ^ n - (1 + r) ^ i < 0 :=
        sub_neg.mpr (pow_lt_pow_right_of_lt_one₀ h1r hlt hi)
      have hden : (1 + r) ^ n - 1 < 0 :=
        sub_neg.mpr (pow_lt_one₀ (le_of_lt h1r) hlt (by omega))
      exact mul_pos hinv (div_pos_of_neg_of_neg hnum hden)
    · exact absurd (by linarith : r = 0) hr
    · have hpow : (1 + r) ^ n ≠ 1 := ne_of_gt (one_lt_pow₀ hgt (by omega))
      rw [sched_balance_closed r n inv hr hpow i]
      have hnum : 0 < (1 + r) ^ n - (1 + r) ^ i :=
        sub_pos.mpr (pow_lt_pow_right₀ hgt hi)
      have hden : 0 < (1 + r) ^ n - 1 :=
        sub_pos.mpr (one_lt_pow₀ hgt (by omega))
      exact mul_pos hinv (div_pos hnum hden)

/-- C6 (amended): for every loan with term ≥ 1, invested > 0, an enumerated
frequency (the Freq type is exactly the enumerated set) and, additionally,
periodic rate coupon / periods-per-year greater than -1 — a hypothesis the
descriptor invariant alone does not supply, as the counterexample shows —
the scheduled balance is nonzero (indeed positive) at index i - 1 for every
period 1 ≤ i ≤ term, so each division of the adjustment recurrence is
well-defined, and the balance reaches zero exactly at the final index. -/
theorem claim_C6 (L : Loan) (h1 : 1 ≤ L.term) (h2 : 0 < L.invested)
    (hr : -1 < loanRate L) :
    (∀ i, 1 ≤ i → i ≤ L.term →
      sched_balance (loanRate L) L.term L.invested (i - 1) ≠ 0) ∧
    sched_balance (loanRate L) L.term L.invested L.term = 0 := by
  constructor
  · intro i hi1 hi2
    have hlt : i - 1 < L.term := by omega
    exact ne_of_gt (sched_balance_pos (loanRate L) L.term L.invested h1 h2 hr (i - 1) hlt)
  · by_cases hrr : loanRate L = 0
    · rw [hrr, sched_balance_zero_rate L.term L.invested (by omega) L.term]
      simp
    · have h1r : 0 < 1 + loanRate L := by linarith
      have hane : (1 + loanRate L) ^ L.term ≠ 1 := by
        rcases lt_trichotomy (1 + loanRate L) 1 with hlt | heq | hgt
        · exact ne_of_lt (pow_lt_one₀ (le_of_lt h1r) hlt (by omega))
        · exact absurd (by linarith : loanRate L = 0) hrr
        · exact ne_of_gt (one_lt_pow₀ hgt (by omega))
      rw [sched_balance_closed _ _ _ hrr hane]
      simp

/-- A benign loan for the C6 witness: monthly, coupon 12 (periodic rate 1). -/
def loanW6 : Loan := ⟨"D", ⟨2016, 1, 15⟩, 2, 12, 100, 0, 0, 0, 0, 0, Freq.M, none⟩

/-- Witness for C6 at the concrete loanW6 and period i = 1. -/
theorem claim_C6_witness :
    1 ≤ loanW6.term ∧ 0 < loanW6.invested ∧ -1 < loanRate loanW6 ∧
    sched_balance (loanRate loanW6) loanW6.term loanW6.invested 0 ≠ 0 := by
  have hrat : -1 < loanRate loanW6 := by norm_num [loanRate, loanW6, FREQ_PERIOD_MAP]
  exact ⟨by decide, by norm_num [loanW6], hrat,
    (claim_C6 loanW6 (by decide) (by norm_num [loanW6]) hrat).1 1 (by decide) (by decide)⟩

/-! ### Inversion lemmas for the orchestration steps -/

/-- Success form of fetch_prepay_speed: the key was present and the dropna'd
column was assignable (exactly nper entries, or one entry broadcast to nper
copies); either way the state gains prepay_speed = 0 :: series with the
series of length nper. -/
theorem fetch_prepay_speed_ok (PP : PrepayTable) (n : ℕ) (st st2 : Amortization)
    (h : fetch_prepay_speed PP n st = Except.ok st2) :
    ∃ vals : List ℚ, vals.length = n ∧
      st2 = { st with prepay_speed := some ((0 : ℚ) :: vals) } := by
  unfold fetch_prepay_speed at h
  by_cases hk : PP.containsKey n = true
  · simp only [hk, not_true_eq_false, if_false] at h
    by_cases hl : (dropna (PP.col n)).length = n
    · simp only [hl, if_true] at h
      injection h with h
      exact ⟨dropna (PP.col n), hl, h.symm⟩
    · rw [if_neg hl] at h
      by_cases hl1 : (dropna (PP.col n)).length = 1
      · rw [if_pos hl1] at h
        injection h with h
        exact ⟨List.replicate n ((dropna (PP.col n)).headD 0), by simp, h.symm⟩
      · rw [if_neg hl1] at h
        exact absurd h (by simp)
  · simp [hk] at h

/-- Success form of fetch_default_rate: the full looked-up column was
stored and nothing else changed — the positional .iloc column for an int
selector, the named column for a str selector. -/
theorem fetch_default_rate_ok (CO : ChargeOffTable) (sel : Selector)
    (st st2 : Amortization) (h : fetch_default_rate CO sel st = Except.ok st2) :
    ∃ col : List ℚ, st2 = { st with default_rate := some col } ∧
      (match sel with
       | Selector.int i => CO.iloc i = Except.ok col
       | Selector.str s => col = CO.colByName s
       | Selector.other => False) := by
  cases sel with
  | int i =>
    unfold fetch_default_rate at h
    by_cases hge : (CO.ncols : ℤ) ≤ i
    · simp [hge] at h
    · simp only [hge, if_false] at h
      cases hiloc : CO.iloc i with
      | ok col =>
        rw [hiloc] at h
        injection h with h
        exact ⟨col, h.symm, hiloc⟩
      | error e => rw [hiloc] at h; exact absurd h (by simp)
  | str s =>
    unfold fetch_default_rate at h
    by_cases hk : CO.containsKey s = true
    · simp only [hk, if_true] at h
      injection h with h
      exact ⟨CO.colByName s, h.symm, rfl⟩
    · simp [hk] at h
  | other => simp [fetch_default_rate] at h

/-- Timestamp.replace(day) returns a date with exactly that day. -/
theorem replace_day_ok (d : Date) (day : ℕ) (d2 : Date)
    (h : replace_day d day = Except.ok d2) : d2.day = day := by
  unfold replace_day at h
  by_cases hc : 1 ≤ day ∧ day ≤ daysInMonth d.year d.month
  · simp only [hc, if_true] at h
    injection h with h
    rw [← h]
  · simp [hc] at h

/-- The day-replacement map preserves the list length. -/
theorem replaceAll_ok_length (ds : List Date) (day : ℕ) (out : List Date)
    (h : replaceAll ds day = Except.ok out) : out.length = ds.length := by
  induction ds generalizing out with
  | nil =>
    unfold replaceAll at h
    injection h with h
    rw [← h]
  | cons d rest ih =>
    unfold replaceAll at h
    cases h1 : replace_day d day with
    | error e => rw [h1] at h; exact absurd h (by simp)
    | ok d2 =>
      cases h2 : replaceAll rest day with
      | error e => rw [h1, h2] at h; exact absurd h (by simp)
      | ok rest2 =>
        rw [h1, h2] at h
        injection h with h
        rw [← h]
        simp [ih rest2 h2]

/-- Every date in a successful day-replacement has the requested day. -/
theorem replaceAll_ok_days (ds : List Date) (day : ℕ) (out : List Date)
    (h : replaceAll ds day = Except.ok out) : ∀ d ∈ out, d.day = day := by
  induction ds generalizing out with
  | nil =>
    unfold replaceAll at h
    injection h with h
    rw [← h]
    intro d hd
    exact absurd hd (by simp)
  | cons d rest ih =>
    unfold replaceAll at h
    cases h1 : replace_day d day with
    | error e => rw [h1] at h; exact absurd h (by simp)
    | ok d2 =>
      cases h2 : replaceAll rest day with
      | error e => rw [h1, h2] at h; exact absurd h (by simp)
      | ok rest2 =>
        rw [h1, h2] at h
        injection h with h
        rw [← h]
        intro x hx
        rcases List.mem_cons.mp hx with hx | hx
        · rw [hx]; exact replace_day_ok d day d2 h1
        · exact ih rest2 h2 x hx

/-- date_range always yields exactly n dates. -/
theorem date_range_length (start : Date) (n : ℕ) (f : Freq) :
    (date_range start n f).length = n := by
  cases f <;> simp [date_range]

/-- A successful payment_date yields periods + 1 dates. -/
theorem payment_date_ok_length (start : Date) (periods : ℕ) (f : Freq)
    (ds : List Date) (h : payment_date start periods f = Except.ok ds) :
    ds.length = periods + 1 := by
  unfold payment_date at h
  by_cases hday : start.day ≠ ((date_range start (periods + 1) f).headD start).day
  · rw [if_pos hday] at h
    rw [replaceAll_ok_length _ _ _ h, date_range_length]
  · rw [if_neg hday] at h
    injection h with h
    rw [← h, date_range_length]

/-! ### C9: amended -/

/-- C9 (amended): payment_date yields periods + 1 dates whenever it
succeeds; the day-of-month correction is applied exactly when the first
raw generated date's day differs from the start date's day — in that case
every returned date carries the start date's day — and when the first raw
date's day coincides with the start's (e.g. a month-end start) the raw
series is returned unchanged, leaving any later drift uncorrected; the
day replacement itself can fail, so the operation is not error-free. -/
theorem claim_C9 (start : Date) (periods : ℕ) (f : Freq) :
    (∀ ds, payment_date start periods f = Except.ok ds → ds.length = periods + 1) ∧
    (start.day ≠ ((date_range start (periods + 1) f).headD start).day →
      ∀ ds, payment_date start periods f = Except.ok ds → ∀ d ∈ ds, d.day = start.day) ∧
    (start.day = ((date_range start (periods + 1) f).headD start).day →
      payment_date start periods f = Except.ok (date_range start (periods + 1) f)) := by
  refine ⟨fun ds h => payment_date_ok_length start periods f ds h, ?_, ?_⟩
  · intro hne ds h
    unfold payment_date at h
    rw [if_pos hne] at h
    exact replaceAll_ok_days _ _ _ h
  · intro heq
    unfold payment_date
    rw [if_neg (by simp [heq])]

/-- Witness for C9: a month-end-free start (Aug 24 2015), monthly; the head
of the raw series is Aug 31, so the correction branch applies; combined
with a success case via the third conjunct at a month-end start. -/
theorem claim_C9_witness :
    payment_date ⟨2015, 8, 31⟩ 1 Freq.M
      = Except.ok (date_range ⟨2015, 8, 31⟩ 2 Freq.M) :=
  (claim_C9 ⟨2015, 8, 31⟩ 1 Freq.M).2.2 (by decide)

/-! ### C7 -/

/-- The loop seed: on a state whose scheduled balance is the materialized
schedule, balance[0] = scheduled_balance[0] = invested. -/
theorem adjust_init_balance (L : Loan) (st : Amortization) (n : ℕ)
    (hsb : st.scheduled_balance
      = some ((List.range (n + 1)).map (sched_balance (loanRate L) n L.invested))) :
    (adjEnvOfState L st).balance 0 = L.invested := by
  have hb : (adjEnvOfState L st).balance 0 = stFun st.scheduled_balance 0 := rfl
  rw [hb, hsb, stFun_range_map _ _ _ (by omega)]
  rfl

/-- C7 (amended): after one successful full orchestration, every output
series except the default-rate series has length term + 1; index 0 of every
series holds the initialization values (period index 0, zero scheduled and
realized flows, scheduled balance and realized balance equal to the
invested amount, prepay speed 0, total cash flow equal to the net
investment outflow -invested * (1 + premium)); and the default-rate series
is stored as the full looked-up charge-off column — the positional .iloc
column for a truthy explicit selector, the term-grade-keyed column
otherwise — whose length is the table's row count, not tied to the term. -/
theorem claim_C7 (CO : ChargeOffTable) (PP : PrepayTable) (L : Loan)
    (st stF : Amortization) (h : calc_cashflows CO PP L st = Except.ok stF) :
    (∃ l, stF.pmt_cnt = some l ∧ l.length = L.term + 1) ∧
    (∃ l, stF.pmt_date = some l ∧ l.length = L.term + 1) ∧
    (∃ l, stF.scheduled_principal = some l ∧ l.length = L.term + 1) ∧
    (∃ l, stF.scheduled_interest = some l ∧ l.length = L.term + 1) ∧
    (∃ l, stF.scheduled_balance = some l ∧ l.length = L.term + 1) ∧
    (∃ l, stF.prepay_speed = some l ∧ l.length = L.term + 1) ∧
    (∃ l, stF.recovery = some l ∧ l.length = L.term + 1) ∧
    (∃ l, stF.servicing_cf = some l ∧ l.length = L.term + 1) ∧
    (∃ l, stF.earout_cf = some l ∧ l.length = L.term + 1) ∧
    (∃ l, stF.balance = some l ∧ l.length = L.term + 1) ∧
    (∃ l, stF.principle = some l ∧ l.length = L.term + 1) ∧
    (∃ l, stF.default = some l ∧ l.length = L.term + 1) ∧
    (∃ l, stF.prepay = some l ∧ l.length = L.term + 1) ∧
    (∃ l, stF.interest = some l ∧ l.length = L.term + 1) ∧
    (∃ l, stF.total_cf = some l ∧ l.length = L.term + 1) ∧
    (∃ col, stF.default_rate = some col ∧
      (if truthyOptInt L.charge_off_col_num = true
       then CO.iloc (L.charge_off_col_num.getD 0) = Except.ok col
       else col = CO.colByName (charge_off_lookup_key L))) ∧
    (stF.pmt_cnt.getD []).headD 1 = 0 ∧
    stFun stF.scheduled_principal 0 = 0 ∧
    stFun stF.scheduled_interest 0 = 0 ∧
    stFun stF.scheduled_balance 0 = L.invested ∧
    stFun stF.prepay_speed 0 = 0 ∧
    stFun stF.balance 0 = L.invested ∧
    stFun stF.principle 0 = 0 ∧
    stFun stF.default 0 = 0 ∧
    stFun stF.prepay 0 = 0 ∧
    stFun stF.interest 0 = 0 ∧
    stFun stF.recovery 0 = 0 ∧
    stFun stF.servicing_cf 0 = 0 ∧
    stFun stF.earout_cf 0 = 0 ∧
    stFun stF.total_cf 0 = -L.invested * (1 + L.premium) := by
  unfold calc_cashflows at h
  split at h
  next e => exact absurd h (by simp)
  next st1 heq1 =>
    obtain ⟨vals, hvl, hst1⟩ := fetch_prepay_speed_ok PP L.term st st1 heq1
    split at h
    next e heq2 => exact absurd h (by simp)
    next st2 heq2 =>
      have hcol : ∃ col : List ℚ, st2 = { st1 with default_rate := some col } ∧
          (if truthyOptInt L.charge_off_col_num = true
           then CO.iloc (L.charge_off_col_num.getD 0) = Except.ok col
           else col = CO.colByName (charge_off_lookup_key L)) := by
        by_cases ht : truthyOptInt L.charge_off_col_num = true
        · rw [if_pos ht] at heq2
          obtain ⟨col, hst2, hsel⟩ := fetch_default_rate_ok CO _ st1 st2 heq2
          exact ⟨col, hst2, by rw [if_pos ht]; exact hsel⟩
        · rw [if_neg ht] at heq2
          obtain ⟨col, hst2, hsel⟩ := fetch_default_rate_ok CO _ st1 st2 heq2
          exact ⟨col, hst2, by rw [if_neg ht]; exact hsel⟩
      obtain ⟨col, hst2, hif⟩ := hcol
      split at h
      next e heq3 => exact absurd h (by simp)
      next dates heq3 =>
        have hdl := payment_date_ok_length L.issue_date L.term L.amort_freq dates heq3
        obtain ⟨cnt, hcnt, h12, h18, hrec⟩ := adjust_ok L _ stF h
        have hpc : (calc_scheduled_cashflow L { st2 with pmt_date := some dates }).pmt_cnt
            = some (List.range (L.term + 1)) := rfl
        rw [hpc] at hcnt
        injection hcnt with hcnt
        subst hcnt
        subst hrec
        subst hst2
        subst hst1
        have hn0 : 0 < (List.range (L.term + 1)).length := by simp
        have h00 : 0 < L.term + 1 := by omega
        dsimp only [calc_scheduled_cashflow]
        refine ⟨⟨_, rfl, by simp⟩, ⟨dates, rfl, hdl⟩, ⟨_, rfl, by simp⟩, ⟨_, rfl, by simp⟩,
          ⟨_, rfl, by simp⟩, ⟨(0 : ℚ) :: vals, rfl, by simp [hvl]⟩, ⟨_, rfl, by simp⟩,
          ⟨_, rfl, by simp⟩, ⟨_, rfl, by simp⟩, ⟨_, rfl, by simp⟩, ⟨_, rfl, by simp⟩,
          ⟨_, rfl, by simp⟩, ⟨_, rfl, by simp⟩, ⟨_, rfl, by simp⟩, ⟨_, rfl, by simp⟩,
          ⟨col, rfl, hif⟩, ?_, ?_, ?_, ?_, ?_, ?_, ?_, ?_, ?_, ?_, ?_, ?_, ?_, ?_⟩
        · simp [List.range_succ_eq_map]
        · rw [stFun_range_map _ _ _ h00]
          rfl
        · rw [stFun_range_map _ _ _ h00]
          rfl
        · rw [stFun_range_map _ _ _ h00]
          rfl
        · rfl
        · rw [stFun_range_map _ _ _ hn0]
          exact adjust_init_balance L _ L.term rfl
        · rw [stFun_range_map _ _ _ hn0]
          rfl
        · rw [stFun_range_map _ _ _ hn0]
          rfl
        · rw [stFun_range_map _ _ _ hn0]
          rfl
        · rw [stFun_range_map _ _ _ hn0]
          rfl
        · rw [stFun_range_map _ _ _ hn0]
          simp [AdjEnv.recoveryF, AdjEnv.default]
        · rw [stFun_range_map _ _ _ hn0]
          rfl
        · rw [stFun_range_map _ _ _ hn0]
          simp [AdjEnv.earout]
        · rw [stFun_range_map _ _ _ hn0]
          rfl

/-- The charge-off table of the C7 counterexample: its single column (the
key of loanT18) has 20 rows, while term + 1 = 19. -/
def coC7 : ChargeOffTable := ⟨[("18-A", List.replicate 20 (0 : ℚ))]⟩

/-- The prepay table of the C7 counterexample: 18 entries under key 18. -/
def ppC7 : PrepayTable := ⟨[(18, List.replicate 18 (some (0 : ℚ)))]⟩

/-- The full orchestration run of the C7 counterexample. -/
def resC7 : Except Err Amortization := calc_cashflows coC7 ppC7 loanT18 {}

/-- C7 counterexample: a successful full orchestration in which the stored
default-rate series has the charge-off column's 20 entries while the other
series (balance shown) have term + 1 = 19; the lengths are not identical. -/
theorem claim_C7_counterexample :
    resC7.toOption.map
        (fun s => (((s.default_rate).getD []).length, ((s.balance).getD []).length))
      = some (20, 19) ∧
    loanT18.term + 1 = 19 ∧ (20 : ℕ) ≠ 19 := by
  refine ⟨rfl, rfl, by decide⟩

/-- Witness for C7: applying claim_C7 to the same successful concrete run;
the prepay-speed length conjunct is displayed. -/
theorem claim_C7_witness :
    ∃ l, (okOr resC7).prepay_speed = some l ∧ l.length = loanT18.term + 1 := by
  have h : calc_cashflows coC7 ppC7 loanT18 {} = Except.ok (okOr resC7) := rfl
  exact (claim_C7 coC7 ppC7 loanT18 {} (okOr resC7) h).2.2.2.2.2.1

/-! ### C8: amended -/

/-- C8 (amended): fetch_default_rate with an integer selector fails iff the
index is ≥ the column count (the repo's explicit range error) or below
-ncols (the underlying positional lookup's own out-of-range failure);
integers in [0, ncols) store that column and integers in [-ncols, 0) store
the column counted from the end, so failure is not equivalent to exceeding
the column count alone.  A string selector fails iff the key is absent,
otherwise it stores the named column; any other selector type fails; every
failure returns an error carrying no partial state. -/
theorem claim_C8 (CO : ChargeOffTable) (st : Amortization) :
    (∀ i : ℤ, isOkE (fetch_default_rate CO (Selector.int i) st) = false ↔
      ((CO.ncols : ℤ) ≤ i ∨ i < -(CO.ncols : ℤ))) ∧
    (∀ i : ℤ, 0 ≤ i → i < (CO.ncols : ℤ) →
      fetch_default_rate CO (Selector.int i) st
        = Except.ok { st with default_rate := some (CO.colByPos i.toNat) }) ∧
    (∀ i : ℤ, -(CO.ncols : ℤ) ≤ i → i < 0 →
      fetch_default_rate CO (Selector.int i) st
        = Except.ok { st with default_rate := some (CO.colByPos (i + (CO.ncols : ℤ)).toNat) }) ∧
    (∀ s, isOkE (fetch_default_rate CO (Selector.str s) st) = false ↔
      CO.containsKey s = false) ∧
    (∀ s, CO.containsKey s = true →
      fetch_default_rate CO (Selector.str s) st
        = Except.ok { st with default_rate := some (CO.colByName s) }) ∧
    isOkE (fetch_default_rate CO Selector.other st) = false := by
  refine ⟨?_, ?_, ?_, ?_, ?_, rfl⟩
  · intro i
    simp only [fetch_default_rate, ChargeOffTable.iloc]
    by_cases hge : (CO.ncols : ℤ) ≤ i
    · rw [if_pos hge]
      exact iff_of_true rfl (Or.inl hge)
    · rw [if_neg hge]
      by_cases h0 : 0 ≤ i
      · rw [if_pos h0, if_pos (by omega)]
        exact iff_of_false (by simp [isOkE]) (by omega)
      · rw [if_neg h0]
        by_cases hneg : -(CO.ncols : ℤ) ≤ i
        · rw [if_pos hneg]
          exact iff_of_false (by simp [isOkE]) (by omega)
        · rw [if_neg hneg]
          exact iff_of_true rfl (by omega)
  · intro i h0 hlt
    simp only [fetch_default_rate, ChargeOffTable.iloc]
    rw [if_neg (by omega), if_pos h0, if_pos hlt]
  · intro i hneg hlt
    simp only [fetch_default_rate, ChargeOffTable.iloc]
    rw [if_neg (by omega), if_neg (by omega), if_pos hneg]
  · intro s
    simp only [fetch_default_rate]
    by_cases hk : CO.containsKey s = true
    · rw [if_pos hk]
      exact iff_of_false (by simp [isOkE]) (by simp [hk])
    · rw [if_neg hk]
      exact iff_of_true rfl (by simpa using hk)
  · intro s hk
    simp only [fetch_default_rate]
    rw [if_pos hk]

/-- Witness for C8: column 0 of the one-column table is stored. -/
theorem claim_C8_witness :
    fetch_default_rate coOne (Selector.int 0) {}
      = Except.ok { ({} : Amortization) with default_rate := some (coOne.colByPos 0) } :=
  (claim_C8 coOne {}).2.1 0 (by decide) (by decide)
